import Mathlib

/-!
Shallow embedding of the distributed circuit breaker core
(`src/breaker/core/store.py`, `src/breaker/core/strategy/core.py`,
`src/breaker/core/strategy/DistributedPodsStrategy.py`,
`src/breaker/core/breaker.py`).

Modelling conventions:
* wall-clock timestamps (second granularity, the `YYYY-MM-DDTHH:MM:SS`
  bucket keys) are modelled as `Int` seconds;
* the monotonic clock (`time.monotonic`, a float) is modelled as `Rat`;
* Python dicts keyed by timestamp strings are association lists keyed by
  `Int`; dicts keyed by breaker name are functions `String -> Option _`;
* each mutating method becomes a pure function threading the relevant
  state (local store, redis counters, strategy fields) explicitly;
* `datetime.now()` / `monotonic()` are passed in as explicit `wall` /
  `mono` arguments.
-/

namespace Breaker

/-- Embeds `BreakerStates` enum from `strategy/core.py`. -/
inductive BreakerStates
  | CLOSED
  | OPEN
deriving DecidableEq, Repr

/-- An exception value. `isException` records whether the raised type is a
subclass of Python's `Exception` (the only thing the breaker's failure
classifier inspects: `included_errors` is `[Exception]`, so
`build_failure_predicate` reduces to `issubclass(thrown_type, (Exception,))`).
`code` distinguishes distinct exception values. -/
structure Err where
  isException : Bool
  code : Nat
deriving DecidableEq, Repr

/-- Embeds `BreakerService.is_failure`: `build_failure_predicate([Exception])`
applied to the thrown type, i.e. `issubclass(thrown_type, (Exception,))`. -/
def is_failure (e : Err) : Bool := e.isException

/-- One bucket of the cached past window: per-second success/failed counts
(`{Store.SUCCESS: _, Store.FAILED: _}` in `DistributedPodsStrategy`). -/
structure WindowData where
  success : Nat
  failed : Nat
deriving DecidableEq, Repr

/-- The `past_window` dict of a local-store entry. In the source it is either
the empty dict `{}` (initial value) or a dict with the two keys
`Store.PAST_WINDOW_END` ("end") and `Store.WINDOW_KEY` ("window"); we model
each key as an `Option` field (`none` = key absent). -/
structure PastWindow where
  pwEnd : Option Int
  window : Option (List (Int × WindowData))
deriving DecidableEq, Repr

/-- The empty dict `{}`. -/
def PastWindow.empty : PastWindow := ⟨none, none⟩

/-- Python truthiness of the `past_window` dict: `{}` is falsy. -/
def PastWindow.isEmpty (p : PastWindow) : Bool := p.pwEnd.isNone && p.window.isNone

/-- Per-key dict merge `{**old, **new}` restricted to the two keys of a
`past_window` dict: a key present in `new` wins, otherwise `old`'s value
survives. -/
def mergeField {β : Type} (old new : Option β) : Option β :=
  match new with
  | some v => some v
  | none => old

/-- Embeds `{**old_past_window, **new_past_window}` as performed by
`CircuitStoreSingleton.update_past_window`: the merge happens at the TOP
level of the dict, whose only keys are "end" and "window". -/
def mergePastWindow (old new : PastWindow) : PastWindow :=
  ⟨mergeField old.pwEnd new.pwEnd, mergeField old.window new.window⟩

/-- One entry of `CircuitStoreSingleton.__circuits`: the per-breaker local
buffer plus the cached past window. -/
structure CircuitEntry where
  total : Nat
  success : Nat
  failed : Nat
  window_start : Int
  past_window : PastWindow
deriving DecidableEq, Repr

/-- The fresh entry installed by the `circuits` setter. -/
def freshEntry (wall : Int) : CircuitEntry :=
  { total := 0, success := 0, failed := 0, window_start := wall,
    past_window := PastWindow.empty }

/-- Embeds `CircuitStoreSingleton.__circuits`: breaker name to its entry. -/
abbrev CircuitStore := String → Option CircuitEntry

/-- The store with no breakers registered. -/
def emptyStore : CircuitStore := fun _ => none

/-- Overwrite (or add) one entry of the circuits dict. -/
def updateStore (store : CircuitStore) (name : String) (e : CircuitEntry) : CircuitStore :=
  fun k => if k = name then some e else store k

/-- The `circuits` property setter: create a fresh entry if the breaker is
not registered yet, otherwise leave the store unchanged. -/
def circuits_set (store : CircuitStore) (name : String) (wall : Int) : CircuitStore :=
  match store name with
  | some _ => store
  | none => updateStore store name (freshEntry wall)

/-- Embeds `CircuitStoreSingleton.get_breaker`: ensure the entry exists (creating a
fresh one if missing) and return it together with the updated store. -/
def get_breaker (store : CircuitStore) (name : String) (wall : Int) :
    CircuitStore × CircuitEntry :=
  match store name with
  | some e => (store, e)
  | none =>
    let s := circuits_set store name wall
    (s, (s name).getD (freshEntry wall))

/-- Increment the success and total counters of one entry. -/
def bump_success (e : CircuitEntry) (inc : Nat) : CircuitEntry :=
  { e with success := e.success + inc, total := e.total + inc }

/-- Increment the failed and total counters of one entry. -/
def bump_failed (e : CircuitEntry) (inc : Nat) : CircuitEntry :=
  { e with failed := e.failed + inc, total := e.total + inc }

/-- Embeds `CircuitStoreSingleton.record_success`. When the breaker is absent the
source creates it and recurses WITHOUT forwarding `increment`, so the
recursive call uses the default increment 1. -/
def record_success (store : CircuitStore) (name : String) (inc : Nat) (wall : Int) :
    CircuitStore × CircuitEntry :=
  match store name with
  | some e =>
    let e2 := bump_success e inc
    (updateStore store name e2, e2)
  | none =>
    let e2 := bump_success (freshEntry wall) 1
    (updateStore (circuits_set store name wall) name e2, e2)

/-- Embeds `CircuitStoreSingleton.record_failure`; same recursion quirk as
`record_success`. -/
def record_failure (store : CircuitStore) (name : String) (inc : Nat) (wall : Int) :
    CircuitStore × CircuitEntry :=
  match store name with
  | some e =>
    let e2 := bump_failed e inc
    (updateStore store name e2, e2)
  | none =>
    let e2 := bump_failed (freshEntry wall) 1
    (updateStore (circuits_set store name wall) name e2, e2)

/-- Embeds `CircuitStoreSingleton.reset_breaker`: pop the entry and recreate a
fresh one. -/
def reset_breaker (store : CircuitStore) (name : String) (wall : Int) : CircuitStore :=
  circuits_set (fun k => if k = name then none else store k) name wall

/-- Embeds `CircuitStoreSingleton.get_past_window`:
`self.__circuits.get(name, {}).get(PAST_WINDOW)` — `none` iff the breaker is
absent (an existing entry always carries its `past_window` dict). -/
def get_past_window (store : CircuitStore) (name : String) : Option PastWindow :=
  (store name).map (fun e => e.past_window)

/-- Embeds `CircuitStoreSingleton.update_past_window`: only acts when the breaker is
registered; merges the new past-window dict into the stored one at the top
level (see `mergePastWindow`). -/
def update_past_window (store : CircuitStore) (name : String) (newPw : PastWindow) :
    CircuitStore :=
  match store name with
  | some e => updateStore store name { e with past_window := mergePastWindow e.past_window newPw }
  | none => store

/-! ## Strategy core (`strategy/core.py`) -/

/-- Embeds `BreakerBaseStrategyConfig` dataclass. `recovery_timeout` participates in
monotonic-clock arithmetic, so it is modelled as `Rat`. -/
structure BreakerBaseStrategyConfig where
  name : String
  recovery_timeout : Rat
  error_threshold_open : Rat
  error_threshold_close : Rat
  min_requests : Nat
  window : Nat
deriving DecidableEq, Repr

/-- The mutable fields of a `DistributedPods` strategy object:
the base-class fields `_state`, `_failure_count`, `_last_failure`, `_opened`,
plus the subclass field `_read_delay`. The immutable `config` is carried
along. The fallback function is modelled separately (see `wrapperStep`). -/
structure StrategyState where
  config : BreakerBaseStrategyConfig
  read_delay : Nat
  state : BreakerStates
  failure_count : Nat
  last_failure : Option Err
  opened : Rat
deriving DecidableEq, Repr

/-- Embeds `BreakerBaseStrategy.seconds_remaining_until_circuit_is_open`:
`ceil(remain)` when positive, else `floor(remain)`. -/
def seconds_remaining (st : StrategyState) (mono : Rat) : Int :=
  let remain := st.opened + st.config.recovery_timeout - mono
  if 0 < remain then ⌈remain⌉ else ⌊remain⌋

/-- Result of reading the `state` property: the observed state plus the
(possibly mutated) strategy fields and local store. -/
structure StateReadResult where
  observed : BreakerStates
  st : StrategyState
  store : CircuitStore

/-- The `BreakerBaseStrategy.state` property: reading the state of an OPEN
breaker whose recovery timer has run out transitions it to CLOSED, refreshes
`_opened`, zeroes `_failure_count` and resets the local buffer. -/
def state_read (st : StrategyState) (store : CircuitStore) (mono : Rat) (wall : Int) :
    StateReadResult :=
  if st.state = BreakerStates.OPEN ∧ seconds_remaining st mono ≤ 0 then
    { observed := BreakerStates.CLOSED,
      st := { st with state := BreakerStates.CLOSED, opened := mono, failure_count := 0 },
      store := reset_breaker store st.config.name wall }
  else
    { observed := st.state, st := st, store := store }

/-- Embeds `BreakerBaseStrategy._open_circuit`: reads the `state` property (which may
itself transition an expired OPEN breaker) and, if CLOSED is observed, moves
to OPEN recording `_opened = monotonic()`. -/
def open_circuit (st : StrategyState) (store : CircuitStore) (mono : Rat) (wall : Int) :
    StrategyState × CircuitStore :=
  let r := state_read st store mono wall
  if r.observed = BreakerStates.CLOSED then
    ({ r.st with state := BreakerStates.OPEN, opened := mono }, r.store)
  else (r.st, r.store)

/-- Embeds `BreakerBaseStrategy._close_circuit`: reads the `state` property and, if
OPEN is observed, moves to CLOSED (without touching `_opened` or
`_failure_count`). -/
def close_circuit (st : StrategyState) (store : CircuitStore) (mono : Rat) (wall : Int) :
    StrategyState × CircuitStore :=
  let r := state_read st store mono wall
  if r.observed = BreakerStates.OPEN then
    ({ r.st with state := BreakerStates.CLOSED }, r.store)
  else (r.st, r.store)

/-! ## Redis-backed shared window (`DistributedPodsStrategy.py`) -/

/-- The shared store's counters: `breaker:{name}:success:-{sec}` and
`breaker:{name}:failure:-{sec}` keys, a missing key reading as 0 (`mget`
returns `None` there and the source maps it to 0). TTLs (`expireat`) are not
modelled: no claim reads a key after its expiry. -/
structure RedisState where
  succCount : String → Int → Nat
  failCount : String → Int → Nat

/-- Redis with no keys set. -/
def emptyRedis : RedisState := ⟨fun _ _ => 0, fun _ _ => 0⟩

/-- Embeds `INCRBY` on one per-second counter key. -/
def incrCounter (f : String → Int → Nat) (name : String) (t : Int) (delta : Nat) :
    String → Int → Nat :=
  fun n s => if n = name ∧ s = t then f n s + delta else f n s

/-- The inclusive second range produced by
`rrule(SECONDLY, dtstart=start, until=stop)`. Empty when `stop < start`. -/
def rangeSeconds (start stop : Int) : List Int :=
  (List.range (stop - start + 1).toNat).map (fun (i : Nat) => start + (i : Int))

/-- Dict assignment `window[k] = v`: overwrite in place if the key exists,
otherwise append. -/
def windowInsert (w : List (Int × WindowData)) (k : Int) (v : WindowData) :
    List (Int × WindowData) :=
  if w.any (fun b => b.1 = k) then
    w.map (fun b => if b.1 = k then (k, v) else b)
  else w ++ [(k, v)]

/-- The nested per-breaker dict that the source hard-codes under the single
top-level key "breaker_name" of `distributed_config` in
`BreakerStrategiesSingleton.get_strategy`. It is never read: the scalar
lookups happen at the TOP level of `distributed_config` (see
`distributed_config_top_get`). -/
def distributed_config_nested : List (String × Nat) :=
  [("window", 60), ("min_requests", 10), ("read_delay", 1)]

/-- Top-level scalar lookup `distributed_config.get(key, default)` (without
the default): the dict's only top-level key is "breaker_name" (whose value is
`distributed_config_nested`), so looking up "min_requests", "window" or
"read_delay" there always misses. -/
def distributed_config_top_get (key : String) : Option Nat :=
  (([] : List (String × Nat)).lookup key)

def DistributedPods.DEFAULT_MIN_REQUESTS : Nat := 30

def DistributedPods.DEFAULT_WINDOW_READ_DELAY : Nat := 1

def DistributedPods.DEFAULT_WINDOW : Nat := 60

/-- The inner `fetch_window_data_from_redis` closure of
`DistributedPods.__fetch_past_window_from_store`: range-read both key
families over `[previous_window_start, now]` and build the window dict
second by second; returns the new past-window dict with "end" set to now. -/
def fetch_window_data_from_redis (st : StrategyState) (redis : RedisState) (wall : Int)
    (past_window_end : Option Int) : PastWindow :=
  let previous_window_start :=
    match past_window_end with
    | none => wall - ((st.config.window : Int) + (st.read_delay : Int))
    | some e => e - (st.read_delay : Int)
  let seconds := rangeSeconds previous_window_start wall
  let window := seconds.map (fun t =>
    (t, WindowData.mk (redis.succCount st.config.name t) (redis.failCount st.config.name t)))
  { pwEnd := some wall, window := some window }

/-- Embeds `DistributedPods.sync`: flush the local buffer's counts into the redis
buckets for the current second (skipping zero deltas) and reset the local
buffer. The `expireat` TTL calls are not modelled. -/
def sync_buffer (st : StrategyState) (store : CircuitStore) (redis : RedisState)
    (wall : Int) : CircuitStore × RedisState :=
  let p := get_breaker store st.config.name wall
  let buf := p.2
  let redis1 :=
    if buf.success ≠ 0 then
      { redis with succCount := incrCounter redis.succCount st.config.name wall buf.success }
    else redis
  let redis2 :=
    if buf.failed ≠ 0 then
      { redis1 with failCount := incrCounter redis1.failCount st.config.name wall buf.failed }
    else redis1
  (reset_breaker p.1 st.config.name wall, redis2)

/-- Result of `__fetch_past_window_from_store`. -/
structure FetchResult where
  store : CircuitStore
  redis : RedisState
  pastWindow : PastWindow
  updated : Bool

/-- The `if not past_window / elif ... expired` dispatch of
`__fetch_past_window_from_store`: `none` means no fetch is needed,
`some pwe` means fetch from redis with `past_window_end = pwe`. -/
def fetch_plan (st : StrategyState) (store : CircuitStore) (wall : Int) :
    Option (Option Int) :=
  match get_past_window store st.config.name with
  | none => some none
  | some pw =>
    if pw.isEmpty then some none
    else
      match pw.pwEnd with
      | some e => if (st.read_delay : Int) < wall - e then some (some e) else none
      | none => none

/-- Embeds `DistributedPods.__fetch_past_window_from_store`: refresh the cached
snapshot when it is missing/empty or stale by more than `_read_delay`
seconds; on refresh inject the local buffer as a synthetic bucket at `now`
and, when `sync_flag` is set, flush the buffer to redis and store the new
snapshot (via `update_past_window`). -/
def fetch_past_window_from_store (st : StrategyState) (store : CircuitStore)
    (redis : RedisState) (wall : Int) (sync_flag : Bool) : FetchResult :=
  match fetch_plan st store wall with
  | none =>
    { store := store, redis := redis,
      pastWindow := (get_past_window store st.config.name).getD PastWindow.empty,
      updated := false }
  | some pwe =>
    let fetched := fetch_window_data_from_redis st redis wall pwe
    let p := get_breaker store st.config.name wall
    let fetched1 : PastWindow :=
      { pwEnd := fetched.pwEnd,
        window := some (windowInsert (fetched.window.getD []) wall
          (WindowData.mk p.2.success p.2.failed)) }
    if sync_flag then
      let q := sync_buffer st p.1 redis wall
      let store3 := update_past_window q.1 st.config.name fetched1
      { store := store3, redis := q.2, pastWindow := fetched1, updated := true }
    else
      { store := p.1, redis := redis, pastWindow := fetched1, updated := true }

/-- The lower bound of the second range a refresh reads: the full
`window + read_delay` span on a first fetch, and `previousEnd - read_delay`
on a refresh of a stale snapshot. -/
def refresh_start (st : StrategyState) (store : CircuitStore) (wall : Int) : Int :=
  match fetch_plan st store wall with
  | some (some e) => e - (st.read_delay : Int)
  | _ => wall - ((st.config.window : Int) + (st.read_delay : Int))

/-- Sum the success/failed counts over every bucket of a past-window dict:
`(past_successes, past_failures)`. -/
def window_totals (pw : PastWindow) : Nat × Nat :=
  (pw.window.getD []).foldl (fun acc b => (acc.1 + b.2.success, acc.2 + b.2.failed)) (0, 0)

/-- The boolean trip condition of `_should_open` (evaluation order as in the
Python `and`: the ratio is only computed when `total_events >= min_requests`;
Lean's total division makes the expression total here, and
`should_open_checked` tracks the evaluation discipline explicitly). -/
def open_decision (min_requests : Nat) (threshold : Rat)
    (total_failures total_events : Nat) : Bool :=
  decide (min_requests ≤ total_events) &&
    decide (threshold ≤ (total_failures : Rat) / (total_events : Rat))

/-- The boolean untrip condition of `_should_close` (`if total_events and
ratio <= threshold`). -/
def close_decision (threshold : Rat) (total_failures total_events : Nat) : Bool :=
  decide (total_events ≠ 0) &&
    decide ((total_failures : Rat) / (total_events : Rat) ≤ threshold)

/-- Result of `_should_open` / `_should_close`. -/
structure EvalResult where
  store : CircuitStore
  redis : RedisState
  result : Bool

/-- Embeds `DistributedPods._should_open`: fetch (and possibly refresh) the past
window, re-read the buffered counts when a refresh flushed them, aggregate,
and apply the trip condition. -/
def should_open (st : StrategyState) (store : CircuitStore) (redis : RedisState)
    (wall : Int) (buffered_success buffered_failure : Nat) (sync_flag : Bool) :
    EvalResult :=
  let fr := fetch_past_window_from_store st store redis wall sync_flag
  let trip :=
    if fr.updated then
      let p := get_breaker fr.store st.config.name wall
      (p.1, p.2.success, p.2.failed)
    else (fr.store, buffered_success, buffered_failure)
  let totals := window_totals fr.pastWindow
  let total_failures := totals.2 + trip.2.2
  let total_events := total_failures + totals.1 + trip.2.1
  { store := trip.1, redis := fr.redis,
    result := open_decision st.config.min_requests st.config.error_threshold_open
      total_failures total_events }

/-- Embeds `DistributedPods._should_close`: same aggregation as `_should_open`
(always fetching with `sync=True`) followed by the untrip condition. -/
def should_close (st : StrategyState) (store : CircuitStore) (redis : RedisState)
    (wall : Int) (buffered_success buffered_failure : Nat) : EvalResult :=
  let fr := fetch_past_window_from_store st store redis wall true
  let trip :=
    if fr.updated then
      let p := get_breaker fr.store st.config.name wall
      (p.1, p.2.success, p.2.failed)
    else (fr.store, buffered_success, buffered_failure)
  let totals := window_totals fr.pastWindow
  let total_failures := totals.2 + trip.2.2
  let total_events := total_failures + totals.1 + trip.2.1
  { store := trip.1, redis := fr.redis,
    result := close_decision st.config.error_threshold_close total_failures total_events }

/-- The aggregated fleet view `(total_events, total_failures)` exactly as
`_should_open` / `_should_close` compute it: fetch (possibly refreshing),
re-read the buffered counts when the refresh flushed them, and sum past
buckets plus buffer. -/
def aggregated_view (st : StrategyState) (store : CircuitStore) (redis : RedisState)
    (wall : Int) (buffered_success buffered_failure : Nat) (sync_flag : Bool) :
    Nat × Nat :=
  let fr := fetch_past_window_from_store st store redis wall sync_flag
  let trip :=
    if fr.updated then
      let p := get_breaker fr.store st.config.name wall
      (p.2.success, p.2.failed)
    else (buffered_success, buffered_failure)
  let totals := window_totals fr.pastWindow
  let total_failures := totals.2 + trip.2
  (total_failures + totals.1 + trip.1, total_failures)

/-- Combined result of an outcome handler. -/
structure StepResult where
  st : StrategyState
  store : CircuitStore
  redis : RedisState

/-- Embeds `DistributedPods.handle_error`: note the classified failure, record it in
the local buffer, evaluate `_should_open` (with sync) on the post-record
counts and open the circuit when it trips. -/
def handle_error (st : StrategyState) (store : CircuitStore) (redis : RedisState)
    (mono : Rat) (wall : Int) (exc : Err) : StepResult :=
  let st1 := { st with last_failure := some exc, failure_count := st.failure_count + 1 }
  let p := record_failure store st1.config.name 1 wall
  let ev := should_open st1 p.1 redis wall p.2.success p.2.failed true
  if ev.result then
    let oc := open_circuit st1 ev.store mono wall
    { st := oc.1, store := oc.2, redis := ev.redis }
  else
    { st := st1, store := ev.store, redis := ev.redis }

/-- Embeds `DistributedPods.handle_success`: record the success; only when the raw
`_state` field is OPEN does it evaluate `_should_close` and possibly close
the circuit. -/
def handle_success (st : StrategyState) (store : CircuitStore) (redis : RedisState)
    (mono : Rat) (wall : Int) : StepResult :=
  let p := record_success store st.config.name 1 wall
  if st.state = BreakerStates.OPEN then
    let ev := should_close st p.1 redis wall p.2.success p.2.failed
    if ev.result then
      let cc := close_circuit st ev.store mono wall
      { st := cc.1, store := cc.2, redis := ev.redis }
    else
      { st := st, store := ev.store, redis := ev.redis }
  else
    { st := st, store := p.1, redis := redis }

/-- Embeds `DistributedPods.feature_flag_enabled`: the source returns `True`
unconditionally (the remote-flag fetch is a production stub). -/
def feature_flag_enabled : Bool := true

/-! ## Call wrapper and scoped guard (`breaker.py`, `BreakerService`) -/

/-- Which outcome `__exit__` reported to the strategy. -/
inductive Reported
  | success
  | failure
deriving DecidableEq, Repr

/-- Result of `BreakerService.__exit__`: the updated state plus the outcome
notified to the strategy (`none` when the feature flag is disabled and the
exit records nothing). -/
structure ExitResult where
  st : StrategyState
  store : CircuitStore
  redis : RedisState
  reported : Option Reported

/-- Embeds `BreakerService.__enter__`: the source body is `return None` — entering
the scope touches nothing and never denies. -/
def service_enter (st : StrategyState) (store : CircuitStore) (redis : RedisState) :
    StrategyState × CircuitStore × RedisState :=
  (st, store, redis)

/-- Embeds `BreakerService.__exit__`: when the feature flag is enabled, report a
failure if an error escaped the scope and `is_failure` classifies it, else
report a success (also for unclassified errors and for normal exits); the
exception, if any, is re-raised (the method returns `False`). -/
def service_exit (st : StrategyState) (store : CircuitStore) (redis : RedisState)
    (mono : Rat) (wall : Int) (exc : Option Err) : ExitResult :=
  if feature_flag_enabled = false then
    { st := st, store := store, redis := redis, reported := none }
  else
    match exc with
    | some e =>
      if is_failure e then
        let r := handle_error st store redis mono wall e
        { st := r.st, store := r.store, redis := r.redis, reported := some Reported.failure }
      else
        let r := handle_success st store redis mono wall
        { st := r.st, store := r.store, redis := r.redis, reported := some Reported.success }
    | none =>
      let r := handle_success st store redis mono wall
      { st := r.st, store := r.store, redis := r.redis, reported := some Reported.success }

/-- The imperative scoped guard: `with breaker: body` — `__enter__`, the body
(a value or an escaping error), then `__exit__`. -/
def use_scope (st : StrategyState) (store : CircuitStore) (redis : RedisState)
    (mono : Rat) (wall : Int) (body : Except Err Unit) : ExitResult :=
  let e := service_enter st store redis
  service_exit e.1 e.2.1 e.2.2 mono wall
    (match body with
     | Except.ok _ => none
     | Except.error err => some err)

/-- Result of the admission section of the decorator's `wrapper` (everything
before the protected call runs). -/
structure GateResult where
  st : StrategyState
  store : CircuitStore
  redis : RedisState
  admitted : Bool

/-- The admission section of `BreakerService.decorate`'s `wrapper`: read
`strategy.opened` (a mutating `state`-property read, used for logging), read
the buffered counts, run the opportunistic `_should_open(..., sync=False)`
check while closed (opening the circuit when it trips), and finally admit
iff `strategy.opened` is false. -/
def wrapperGate (st : StrategyState) (store : CircuitStore) (redis : RedisState)
    (mono : Rat) (wall : Int) : GateResult :=
  let r0 := state_read st store mono wall
  let p := get_breaker r0.store st.config.name wall
  let r1 := state_read r0.st p.1 mono wall
  let mid :=
    if r1.observed = BreakerStates.CLOSED then
      let ev := should_open r1.st r1.store redis wall p.2.success p.2.failed false
      if ev.result then
        let oc := open_circuit r1.st ev.store mono wall
        (oc.1, oc.2, ev.redis)
      else (r1.st, ev.store, ev.redis)
    else (r1.st, r1.store, redis)
  let r2 := state_read mid.1 mid.2.1 mono wall
  { st := r2.st, store := r2.store, redis := mid.2.2,
    admitted := decide (¬ r2.observed = BreakerStates.OPEN) }

/-- What one invocation of the wrapped function produced for the caller. -/
inductive CallOutcome (α : Type)
  | value (v : α)
  | errored (e : Err)
  | fellback (v : α)
  | rejected
deriving DecidableEq, Repr

/-- Result of one invocation through the decorator. -/
structure WrapResult (α : Type) where
  st : StrategyState
  store : CircuitStore
  redis : RedisState
  outcome : CallOutcome α

/-- One invocation of the function wrapped by `BreakerService.decorate`.
`f` is the protected call's behaviour at these arguments (a value or a raised
error); `fallback` is the configured fallback's value at these arguments
(`none` when no fallback is configured). When the feature flag is disabled
the call runs directly (`call` still enters and exits the `with self` scope,
whose exit records nothing while disabled). When admitted, the call runs and
`__exit__` classifies the outcome; when denied, the fallback's value is
returned if configured, else the open-circuit error is raised. -/
def wrapperStep {α : Type} (st : StrategyState) (store : CircuitStore)
    (redis : RedisState) (mono : Rat) (wall : Int) (f : Except Err α)
    (fallback : Option α) : WrapResult α :=
  if feature_flag_enabled = false then
    let ex := service_exit st store redis mono wall
      (match f with | Except.ok _ => none | Except.error e => some e)
    { st := ex.st, store := ex.store, redis := ex.redis,
      outcome := match f with
        | Except.ok v => CallOutcome.value v
        | Except.error e => CallOutcome.errored e }
  else
    let g := wrapperGate st store redis mono wall
    if g.admitted then
      let ex := service_exit g.st g.store g.redis mono wall
        (match f with | Except.ok _ => none | Except.error e => some e)
      { st := ex.st, store := ex.store, redis := ex.redis,
        outcome := match f with
          | Except.ok v => CallOutcome.value v
          | Except.error e => CallOutcome.errored e }
    else
      match fallback with
      | some v => { st := g.st, store := g.store, redis := g.redis,
                    outcome := CallOutcome.fellback v }
      | none => { st := g.st, store := g.store, redis := g.redis,
                  outcome := CallOutcome.rejected }

/-! ## Registry (`BreakerStrategiesSingleton`, `BreakerInstancesSingleton`,
`circuit`) -/

/-- Strategy kinds (`Strategy` enum); the source only defines
`Distributed = "distributed_pods"`. -/
inductive StrategyKind
  | Distributed
deriving DecidableEq, Repr

/-- The fields a freshly constructed `DistributedPods` instance retains
(beyond the dynamic `StrategyState` fields, which start at their defaults).
Fallback functions are modelled as opaque tokens. -/
structure StrategyInstance where
  config : BreakerBaseStrategyConfig
  read_delay : Nat
  fallback : Option Nat
deriving DecidableEq, Repr

/-- Embeds `DistributedPods.__init__`'s read-delay assignment:
`kwargs.get("read_delay") or DEFAULT_WINDOW_READ_DELAY` — both a missing
argument and a falsy (zero) one fall back to the default. -/
def init_read_delay (read_delay_arg : Option Nat) : Nat :=
  match read_delay_arg with
  | some v => if v = 0 then DistributedPods.DEFAULT_WINDOW_READ_DELAY else v
  | none => DistributedPods.DEFAULT_WINDOW_READ_DELAY

/-- Construct a `DistributedPods` instance record. -/
def mk_distributed_pods (cfg : BreakerBaseStrategyConfig) (fallback : Option Nat)
    (read_delay_arg : Option Nat) : StrategyInstance :=
  { config := cfg, read_delay := init_read_delay read_delay_arg, fallback := fallback }

/-- Embeds `BreakerStrategiesSingleton.get_strategy`: return the registered instance
for `name` if any; otherwise, for the Distributed strategy, build the config
from the hard-coded `distributed_config` (whose top-level scalar lookups all
miss, see `distributed_config_top_get`) and register a new instance. Note the
source passes `DistributedPods.DEFAULT_WINDOW` — not
`DEFAULT_WINDOW_READ_DELAY` — as the fallback for the "read_delay" lookup. -/
def get_strategy (strategies : String → Option StrategyInstance)
    (strategy : Option StrategyKind) (name : String) (recovery_timeout : Rat)
    (failure_threshold_open failure_threshold_close : Rat) (fallback : Option Nat) :
    (String → Option StrategyInstance) × Option StrategyInstance :=
  match strategies name with
  | some inst => (strategies, some inst)
  | none =>
    match strategy with
    | some StrategyKind.Distributed =>
      let breaker_config : BreakerBaseStrategyConfig :=
        { name := name,
          recovery_timeout := recovery_timeout,
          error_threshold_open := failure_threshold_open,
          error_threshold_close := failure_threshold_close,
          min_requests :=
            (distributed_config_top_get "min_requests").getD
              DistributedPods.DEFAULT_MIN_REQUESTS,
          window :=
            (distributed_config_top_get "window").getD DistributedPods.DEFAULT_WINDOW }
      let inst := mk_distributed_pods breaker_config fallback
        (some ((distributed_config_top_get "read_delay").getD
          DistributedPods.DEFAULT_WINDOW))
      ((fun k => if k = name then some inst else strategies k), some inst)
    | none => (strategies, none)

/-- A `BreakerService` value as built by `BreakerService.__init__` (the
defaults only apply through Python's `or`, so falsy explicit arguments also
fall back; see `or_default`). -/
structure BreakerServiceRec where
  failure_threshold_open : Rat
  failure_threshold_close : Rat
  recovery_timeout : Rat
  fallback_function : Option Nat
  name : Option String
  strategy : Option StrategyKind
deriving DecidableEq, Repr

/-- Python's `x or default` on an optional numeric argument: `None` and 0 are
falsy. -/
def or_default (x : Option Rat) (d : Rat) : Rat :=
  match x with
  | some v => if v = 0 then d else v
  | none => d

/-- Embeds `BreakerService.__init__` with the class defaults
(`DEFAULT_FAILURE_THRESHOLD = 0.5`, `DEFAULT_RECOVERY_TIMEOUT = 30`,
`DEFAULT_FALLBACK_FUNCTION = None`). `fallback_function or None` is the
identity on an optional fallback. -/
def mk_breaker_service (failure_threshold_open failure_threshold_close
    recovery_timeout : Option Rat) (name : Option String) (fallback : Option Nat)
    (strategy : Option StrategyKind) : BreakerServiceRec :=
  { failure_threshold_open := or_default failure_threshold_open (1 / 2),
    failure_threshold_close := or_default failure_threshold_close (1 / 2),
    recovery_timeout := or_default recovery_timeout 30,
    fallback_function := fallback,
    name := name,
    strategy := strategy }

/-- The `circuit` registration function (the `callable(name)` branch for a
bare `@circuit` is outside this model, where `name` is always a string):
an empty name is a fatal configuration error; a name already registered in
`BreakerInstancesSingleton` returns the existing `BreakerService`, ignoring
the new options; otherwise a new service is built and registered. -/
def circuit (breakers : String → Option BreakerServiceRec) (name : String)
    (strategy : Option StrategyKind)
    (failure_threshold failure_threshold_close recovery_timeout : Option Rat)
    (fallback : Option Nat) :
    Except String ((String → Option BreakerServiceRec) × BreakerServiceRec) :=
  if name = "" then
    Except.error "invalid circuit breaker configuration. name is mandatory"
  else
    match breakers name with
    | some b => Except.ok (breakers, b)
    | none =>
      let b := mk_breaker_service failure_threshold failure_threshold_close
        recovery_timeout (some name) fallback strategy
      Except.ok ((fun k => if k = name then some b else breakers k), b)

/-! ## Division-safety mirror (claim C10) -/

/-- Division that fails instead of defaulting when the denominator is zero
(Python raises `ZeroDivisionError` there). -/
def checkedDiv (a b : Rat) : Option Rat :=
  if b = 0 then none else some (a / b)

/-- Embeds `_should_open`'s condition with Python's evaluation order made explicit:
the ratio (and hence the division) is evaluated only when
`total_events >= min_requests`; `none` marks a division by zero. -/
def should_open_checked (min_requests : Nat) (threshold : Rat)
    (total_failures total_events : Nat) : Option Bool :=
  if min_requests ≤ total_events then
    (checkedDiv (total_failures : Rat) (total_events : Rat)).map
      (fun r => decide (threshold ≤ r))
  else some false

/-- Embeds `_should_close`'s condition with the evaluation order made explicit: the
division is evaluated only when `total_events` is truthy (nonzero). -/
def should_close_checked (threshold : Rat) (total_failures total_events : Nat) :
    Option Bool :=
  if total_events ≠ 0 then
    (checkedDiv (total_failures : Rat) (total_events : Rat)).map
      (fun r => decide (r ≤ threshold))
  else some false

/-! ## Shared lemmas -/

/-- When the recovery window has fully elapsed, the remaining-seconds reading
is nonpositive. -/
theorem seconds_remaining_nonpos (st : StrategyState) (mono : Rat)
    (h : st.opened + st.config.recovery_timeout ≤ mono) :
    seconds_remaining st mono ≤ 0 := by
  have hrem : st.opened + st.config.recovery_timeout - mono ≤ 0 := by linarith
  have hneg : ¬ (0 : Rat) < st.opened + st.config.recovery_timeout - mono := by linarith
  simp only [seconds_remaining]
  rw [if_neg hneg]
  exact Int.floor_nonpos hrem

/-- While the recovery window has not elapsed, the remaining-seconds reading
is positive. -/
theorem seconds_remaining_pos (st : StrategyState) (mono : Rat)
    (h : mono < st.opened + st.config.recovery_timeout) :
    0 < seconds_remaining st mono := by
  have hrem : (0 : Rat) < st.opened + st.config.recovery_timeout - mono := by linarith
  simp only [seconds_remaining]
  rw [if_pos hrem]
  exact Int.ceil_pos.mpr hrem

/-- Reading the `state` property of an OPEN breaker whose timer has not
expired changes nothing and observes OPEN. -/
theorem state_read_stays_open (st : StrategyState) (mono : Rat)
    (hOpen : st.state = BreakerStates.OPEN)
    (hTimer : mono < st.opened + st.config.recovery_timeout)
    (store : CircuitStore) (wall : Int) :
    state_read st store mono wall =
      { observed := BreakerStates.OPEN, st := st, store := store } := by
  have hpos := seconds_remaining_pos st mono hTimer
  unfold state_read
  rw [if_neg (by
    intro hc
    exact absurd hc.2 (by omega))]
  rw [hOpen]

/-- Reading the `state` property of a CLOSED breaker changes nothing and
observes CLOSED. -/
theorem state_read_closed (st : StrategyState) (mono : Rat)
    (hClosed : st.state = BreakerStates.CLOSED)
    (store : CircuitStore) (wall : Int) :
    state_read st store mono wall =
      { observed := BreakerStates.CLOSED, st := st, store := store } := by
  unfold state_read
  rw [if_neg (by
    intro hc
    rw [hClosed] at hc
    exact absurd hc.1 (by simp))]
  rw [hClosed]

/-! ## Claim C1 -/

/-- While the breaker is OPEN with an unexpired timer, the wrapper's
admission gate denies, leaves the strategy fields and redis untouched, and
only ensures the local-store entry exists. -/
theorem wrapperGate_denies_open (st : StrategyState) (store : CircuitStore)
    (redis : RedisState) (mono : Rat) (wall : Int)
    (hOpen : st.state = BreakerStates.OPEN)
    (hTimer : mono < st.opened + st.config.recovery_timeout) :
    wrapperGate st store redis mono wall =
      { st := st, store := (get_breaker store st.config.name wall).1, redis := redis,
        admitted := false } := by
  have hro := state_read_stays_open st mono hOpen hTimer
  simp [wrapperGate, hro]

/-- C1: for every breaker whose state is OPEN and whose recovery timer has
not yet expired, every call through the wrapper is denied admission: the
strategy state and redis are unchanged (no outcome recorded; the store is
only touched by `get_breaker`'s ensure-entry), the configured fallback's
value is returned when present and otherwise the open-circuit rejection is
raised, and the result does not depend on the wrapped function at all. -/
theorem C1_open_breaker_denies_admission {α : Type} (st : StrategyState)
    (store : CircuitStore) (redis : RedisState) (mono : Rat) (wall : Int)
    (f f2 : Except Err α) (fb : Option α)
    (hOpen : st.state = BreakerStates.OPEN)
    (hTimer : mono < st.opened + st.config.recovery_timeout) :
    (wrapperStep st store redis mono wall f fb).outcome =
      (match fb with
       | some v => CallOutcome.fellback v
       | none => CallOutcome.rejected) ∧
    (wrapperStep st store redis mono wall f fb).st = st ∧
    (wrapperStep st store redis mono wall f fb).redis = redis ∧
    (wrapperStep st store redis mono wall f fb).store =
      (get_breaker store st.config.name wall).1 ∧
    wrapperStep st store redis mono wall f fb =
      wrapperStep st store redis mono wall f2 fb := by
  have hg := wrapperGate_denies_open st store redis mono wall hOpen hTimer
  have hs : ∀ h : Except Err α,
      wrapperStep st store redis mono wall h fb =
        { st := st, store := (get_breaker store st.config.name wall).1, redis := redis,
          outcome := (match fb with
            | some v => CallOutcome.fellback v
            | none => CallOutcome.rejected) } := by
    intro h
    simp only [wrapperStep, feature_flag_enabled, hg]
    cases fb <;> simp
  rw [hs f, hs f2]
  cases fb <;> simp

/-- A concrete OPEN breaker for the C1 witness: opened at monotonic 0 with a
30-second recovery timeout, observed at monotonic 5. -/
def c1State : StrategyState :=
  { config := { name := "svc", recovery_timeout := 30, error_threshold_open := 1 / 2,
                error_threshold_close := 1 / 2, min_requests := 10, window := 60 },
    read_delay := 1, state := BreakerStates.OPEN, failure_count := 3,
    last_failure := some ⟨true, 0⟩, opened := 0 }

/-- Witness: `C1_open_breaker_denies_admission` at `c1State`, with a
configured fallback value 42 and two different wrapped behaviours (a value
and a raised error). -/
theorem C1_witness :
    (wrapperStep c1State emptyStore emptyRedis 5 100 (Except.ok 7)
        (some 42)).outcome = CallOutcome.fellback 42 ∧
    (wrapperStep c1State emptyStore emptyRedis 5 100 (Except.ok 7) (some 42)).st =
      c1State ∧
    (wrapperStep c1State emptyStore emptyRedis 5 100 (Except.ok 7) (some 42)).redis =
      emptyRedis ∧
    (wrapperStep c1State emptyStore emptyRedis 5 100 (Except.ok 7) (some 42)).store =
      (get_breaker emptyStore c1State.config.name 100).1 ∧
    wrapperStep c1State emptyStore emptyRedis 5 100 (Except.ok 7) (some 42) =
      wrapperStep c1State emptyStore emptyRedis 5 100 (Except.error ⟨true, 1⟩)
        (some 42) :=
  C1_open_breaker_denies_admission c1State emptyStore emptyRedis 5 100 (Except.ok 7)
    (Except.error ⟨true, 1⟩) (some 42) (by decide) (by norm_num [c1State])

/-! ## Claim C3 -/

/-- C3: for every breaker in OPEN state, on every state read where at least
`recoveryTimeoutSeconds` of monotonic time has elapsed since the most recent
transition to OPEN (which set `opened`), the observed state is CLOSED, the
failure count is reset to zero, and the local buffer is reset to a fresh
entry. -/
theorem C3_recovery_on_state_read (st : StrategyState) (store : CircuitStore)
    (mono : Rat) (wall : Int) (hOpen : st.state = BreakerStates.OPEN)
    (hElapsed : st.opened + st.config.recovery_timeout ≤ mono) :
    (state_read st store mono wall).observed = BreakerStates.CLOSED ∧
    (state_read st store mono wall).st.state = BreakerStates.CLOSED ∧
    (state_read st store mono wall).st.failure_count = 0 ∧
    (state_read st store mono wall).store st.config.name = some (freshEntry wall) := by
  have hsr := seconds_remaining_nonpos st mono hElapsed
  unfold state_read
  rw [if_pos ⟨hOpen, hsr⟩]
  refine ⟨rfl, rfl, rfl, ?_⟩
  simp [reset_breaker, circuits_set, updateStore]

/-- Witness for C3 at a concrete OPEN breaker whose timer has expired. -/
def c3State : StrategyState :=
  { config := { name := "svc", recovery_timeout := 30, error_threshold_open := 1 / 2,
                error_threshold_close := 1 / 2, min_requests := 10, window := 60 },
    read_delay := 1, state := BreakerStates.OPEN, failure_count := 7,
    last_failure := some ⟨true, 0⟩, opened := 1 }

/-- Witness: `C3_recovery_on_state_read` evaluated at `c3State` with the
monotonic clock at 41 (40 seconds past the opening, past the 30-second
timer). -/
theorem C3_witness :
    (state_read c3State emptyStore 41 100).observed = BreakerStates.CLOSED ∧
    (state_read c3State emptyStore 41 100).st.state = BreakerStates.CLOSED ∧
    (state_read c3State emptyStore 41 100).st.failure_count = 0 ∧
    (state_read c3State emptyStore 41 100).store c3State.config.name =
      some (freshEntry 100) :=
  C3_recovery_on_state_read c3State emptyStore 41 100 (by decide) (by norm_num [c3State])

/-! ## Claim C7 -/

/-- The state observed by a `state` property read is the post-read value of
the `_state` field. -/
theorem state_read_observed_eq (st : StrategyState) (store : CircuitStore)
    (mono : Rat) (wall : Int) :
    (state_read st store mono wall).observed = (state_read st store mono wall).st.state := by
  unfold state_read
  split <;> rfl

/-- An admitted call is admitted with the breaker CLOSED: the wrapper's final
`strategy.opened` check observes the post-read `_state`. -/
theorem wrapperGate_admitted_closed (st : StrategyState) (store : CircuitStore)
    (redis : RedisState) (mono : Rat) (wall : Int)
    (h : (wrapperGate st store redis mono wall).admitted = true) :
    (wrapperGate st store redis mono wall).st.state = BreakerStates.CLOSED := by
  unfold wrapperGate at h ⊢
  simp only [decide_eq_true_eq] at h
  rw [state_read_observed_eq] at h
  revert h
  generalize (state_read _ _ mono wall).st.state = s
  intro h
  cases s with
  | CLOSED => rfl
  | OPEN => exact absurd rfl h

/-- C7: for every admitted wrapped call that raises an error which the
failure classifier does not classify as a failure, `handle_success` is
called (recording one success in the local buffer and nothing else), the
original error is re-surfaced unchanged to the caller, and the strategy
state (machine state, failure count, last failure) is left exactly as the
admission gate left it. -/
theorem C7_unclassified_error_counts_success {α : Type} (st : StrategyState)
    (store : CircuitStore) (redis : RedisState) (mono : Rat) (wall : Int)
    (e : Err) (fb : Option α)
    (hAdmit : (wrapperGate st store redis mono wall).admitted = true)
    (hNC : is_failure e = false) :
    wrapperStep st store redis mono wall (Except.error e) fb =
      { st := (wrapperGate st store redis mono wall).st,
        store := (record_success (wrapperGate st store redis mono wall).store
          (wrapperGate st store redis mono wall).st.config.name 1 wall).1,
        redis := (wrapperGate st store redis mono wall).redis,
        outcome := CallOutcome.errored e } := by
  have hcl := wrapperGate_admitted_closed st store redis mono wall hAdmit
  simp only [wrapperStep, feature_flag_enabled, hAdmit, service_exit, hNC,
    handle_success, hcl]
  simp

/-- A CLOSED breaker with a fresh cached snapshot for the C7 witness. -/
def c7State : StrategyState :=
  { config := { name := "w", recovery_timeout := 30, error_threshold_open := 1 / 2,
                error_threshold_close := 1 / 2, min_requests := 30, window := 60 },
    read_delay := 1, state := BreakerStates.CLOSED, failure_count := 0,
    last_failure := none, opened := 0 }

/-- Local store for the C7 witness: the snapshot end equals the current wall
second, so no refresh triggers. -/
def c7Store : CircuitStore :=
  updateStore emptyStore "w" ⟨0, 0, 0, 0, ⟨some 100, some []⟩⟩

/-- Witness: at `c7State` / `c7Store` the gate admits, and a wrapped call
raising the non-`Exception` error `⟨false, 5⟩` ends in the success path with
the error re-surfaced. -/
theorem C7_witness :
    (wrapperGate c7State c7Store emptyRedis 5 100).admitted = true ∧
    is_failure ⟨false, 5⟩ = false ∧
    wrapperStep c7State c7Store emptyRedis 5 100 (Except.error ⟨false, 5⟩)
        (some 42) =
      { st := (wrapperGate c7State c7Store emptyRedis 5 100).st,
        store := (record_success (wrapperGate c7State c7Store emptyRedis 5 100).store
          (wrapperGate c7State c7Store emptyRedis 5 100).st.config.name 1 100).1,
        redis := (wrapperGate c7State c7Store emptyRedis 5 100).redis,
        outcome := CallOutcome.errored ⟨false, 5⟩ } :=
  ⟨by simp [wrapperGate, state_read, c7State, c7Store, get_breaker, updateStore,
      emptyStore, should_open, fetch_past_window_from_store, fetch_plan,
      get_past_window, PastWindow.isEmpty, window_totals, open_decision,
      circuits_set],
   rfl,
   C7_unclassified_error_counts_success c7State c7Store emptyRedis 5 100 ⟨false, 5⟩
     (some 42)
     (by simp [wrapperGate, state_read, c7State, c7Store, get_breaker, updateStore,
        emptyStore, should_open, fetch_past_window_from_store, fetch_plan,
        get_past_window, PastWindow.isEmpty, window_totals, open_decision,
        circuits_set])
     rfl⟩

/-! ## Claim C10 -/

/-- C10: the trip and untrip evaluations never divide by zero.
`should_open_checked` / `should_close_checked` mirror `_should_open` /
`_should_close` with Python's short-circuit evaluation order made explicit,
returning `none` exactly when a `ZeroDivisionError` would be evaluated. Under
`min_requests >= 1` (the source's config always has `min_requests = 30`) both
checked evaluations succeed and agree with the decisions the strategy uses. -/
theorem C10_no_division_by_zero (min_requests : Nat) (thrO thrC : Rat)
    (tf te : Nat) (h : 1 ≤ min_requests) :
    should_open_checked min_requests thrO tf te =
      some (open_decision min_requests thrO tf te) ∧
    should_close_checked thrC tf te = some (close_decision thrC tf te) := by
  constructor
  · unfold should_open_checked open_decision checkedDiv
    by_cases hte : min_requests ≤ te
    · have htz : (te : Rat) ≠ 0 := by
        have : 0 < te := by omega
        exact_mod_cast Nat.pos_iff_ne_zero.mp this
      rw [if_pos hte, if_neg htz]
      simp [hte]
    · rw [if_neg hte]
      simp [hte]
  · unfold should_close_checked close_decision checkedDiv
    by_cases hte : te = 0
    · subst hte
      simp
    · have htz : (te : Rat) ≠ 0 := by exact_mod_cast hte
      rw [if_pos hte, if_neg htz]
      simp [hte]

/-- Witness: the checked evaluations at a concrete input (3 failures out of 4
events, `min_requests = 1`) succeed, returning the decisions. -/
theorem C10_witness :
    should_open_checked 1 (1 / 2) 3 4 = some true ∧
    should_close_checked (1 / 2) 3 4 = some false :=
  ⟨((C10_no_division_by_zero 1 (1 / 2) (1 / 2) 3 4 (by decide)).1).trans
      (by norm_num [open_decision]),
   ((C10_no_division_by_zero 1 (1 / 2) (1 / 2) 3 4 (by decide)).2).trans
      (by norm_num [close_decision])⟩

/-! ## Claim C5 -/

/-- C5: a Distributed strategy created through
`BreakerStrategiesSingleton.get_strategy` when the per-breaker remote
configuration supplies no read delay ends up with `read_delay = 60`
(`DistributedPods.DEFAULT_WINDOW`), not the documented default 1
(`DistributedPods.DEFAULT_WINDOW_READ_DELAY`): the source passes
`DEFAULT_WINDOW` as the fallback of the "read_delay" lookup, and the lookup
itself happens at the wrong nesting level of the hard-coded dict, so it
always misses. -/
theorem C5_read_delay_is_window_default :
    ((get_strategy (fun _ => none) (some StrategyKind.Distributed) "svc" 30 (1 / 2)
        (1 / 2) none).2.map StrategyInstance.read_delay) =
      some DistributedPods.DEFAULT_WINDOW ∧
    DistributedPods.DEFAULT_WINDOW = 60 ∧
    DistributedPods.DEFAULT_WINDOW_READ_DELAY = 1 := by
  refine ⟨?_, rfl, rfl⟩
  rfl

/-! ## Claim C2 -/

/-- Embeds `_should_open`'s decision equals the trip condition applied to the
aggregated view. -/
theorem should_open_result_eq (st : StrategyState) (store : CircuitStore)
    (redis : RedisState) (wall : Int) (bs bf : Nat) (sync_flag : Bool) :
    (should_open st store redis wall bs bf sync_flag).result =
      open_decision st.config.min_requests st.config.error_threshold_open
        (aggregated_view st store redis wall bs bf sync_flag).2
        (aggregated_view st store redis wall bs bf sync_flag).1 := by
  unfold should_open aggregated_view
  cases hu : (fetch_past_window_from_store st store redis wall sync_flag).updated <;>
    simp [hu]

theorem reset_breaker_lookup (s : CircuitStore) (n : String) (wall : Int) :
    reset_breaker s n wall n = some (freshEntry wall) := by
  simp [reset_breaker, circuits_set, updateStore]

theorem update_past_window_lookup (s : CircuitStore) (n : String) (e : CircuitEntry)
    (pw : PastWindow) (h : s n = some e) :
    update_past_window s n pw n =
      some { e with past_window := mergePastWindow e.past_window pw } := by
  simp [update_past_window, h, updateStore]

theorem mergePastWindow_empty_left (pw : PastWindow) :
    mergePastWindow PastWindow.empty pw = pw := by
  cases pw with
  | mk a b => cases a <;> cases b <;> rfl

/-- When a sync-enabled fetch refreshes the snapshot, the stored entry comes
out with all buffer counters flushed to zero and the new snapshot
installed. -/
theorem fetch_sync_updated_resets (st : StrategyState) (store : CircuitStore)
    (redis : RedisState) (wall : Int)
    (h : (fetch_past_window_from_store st store redis wall true).updated = true) :
    (fetch_past_window_from_store st store redis wall true).store st.config.name =
      some ⟨0, 0, 0, wall,
        (fetch_past_window_from_store st store redis wall true).pastWindow⟩ := by
  cases hplan : fetch_plan st store wall with
  | none => simp [fetch_past_window_from_store, hplan] at h
  | some pwe =>
    have hs : (fetch_past_window_from_store st store redis wall true).store =
        update_past_window
          (sync_buffer st (get_breaker store st.config.name wall).1 redis wall).1
          st.config.name
          (fetch_past_window_from_store st store redis wall true).pastWindow := by
      simp [fetch_past_window_from_store, hplan]
    have hb : (sync_buffer st (get_breaker store st.config.name wall).1 redis wall).1
        st.config.name = some (freshEntry wall) := by
      simp only [sync_buffer]
      exact reset_breaker_lookup _ _ _
    rw [hs, update_past_window_lookup _ _ _ _ hb]
    simp [freshEntry, mergePastWindow_empty_left]

/-- When the fetch inside a sync-enabled `_should_open` refreshed the
snapshot, the store it returns holds the flushed (zeroed) entry. -/
theorem should_open_store_updated (st : StrategyState) (store : CircuitStore)
    (redis : RedisState) (wall : Int) (bs bf : Nat)
    (hupd : (fetch_past_window_from_store st store redis wall true).updated = true) :
    (should_open st store redis wall bs bf true).store st.config.name =
      some ⟨0, 0, 0, wall,
        (fetch_past_window_from_store st store redis wall true).pastWindow⟩ := by
  have hst := fetch_sync_updated_resets st store redis wall hupd
  simp only [should_open, hupd, if_true]
  simp [get_breaker, hst]

/-- The aggregated view that `handle_error` evaluates: the view after the
failure has been recorded in the local buffer, as `(total_events,
total_failures)`. -/
def handle_error_view (st : StrategyState) (store : CircuitStore) (redis : RedisState)
    (wall : Int) (exc : Err) : Nat × Nat :=
  let st1 := { st with last_failure := some exc, failure_count := st.failure_count + 1 }
  let p := record_failure store st1.config.name 1 wall
  aggregated_view st1 p.1 redis wall p.2.success p.2.failed true

/-- A CLOSED breaker with `min_requests = 1` for the C2 theorems. -/
def c2State : StrategyState :=
  { config := { name := "svc", recovery_timeout := 30, error_threshold_open := 1 / 2,
                error_threshold_close := 1 / 2, min_requests := 1, window := 60 },
    read_delay := 1, state := BreakerStates.CLOSED, failure_count := 0,
    last_failure := none, opened := 0 }

/-- Store for the C2 counterexample's failure side: empty buffer, snapshot
fresh at wall second 100. -/
def c2StoreA : CircuitStore :=
  updateStore emptyStore "svc" ⟨0, 0, 0, 0, ⟨some 100, some []⟩⟩

/-- Store for the C2 counterexample's success side: five buffered failures,
snapshot fresh at wall second 100. -/
def c2StoreB : CircuitStore :=
  updateStore emptyStore "svc" ⟨5, 0, 5, 0, ⟨some 100, some []⟩⟩

/-- C2 counterexample. Failure side: recording a failure at `c2StoreA` trips
the breaker (view `(1, 1)` with `min_requests = 1`, threshold 1/2) and the
breaker transitions to OPEN — but the local buffer is NOT reset (the entry
keeps `total 1, failed 1`; the snapshot was fresh, so no flush happened).
Success side: recording a success at `c2StoreB` yields the view `(6, 5)`,
which satisfies the trip condition (`1 ≤ 6`, `1/2 ≤ 5/6`), yet
`handle_success` leaves the breaker CLOSED: success outcomes never run the
open evaluation. -/
theorem C2_counterexample :
    (handle_error c2State c2StoreA emptyRedis 5 100 ⟨true, 9⟩).st.state =
      BreakerStates.OPEN ∧
    (handle_error c2State c2StoreA emptyRedis 5 100 ⟨true, 9⟩).store "svc" =
      some ⟨1, 0, 1, 0, ⟨some 100, some []⟩⟩ ∧
    aggregated_view c2State (record_success c2StoreB "svc" 1 100).1 emptyRedis 100 1 5
        true = (6, 5) ∧
    c2State.config.min_requests ≤ 6 ∧
    c2State.config.error_threshold_open ≤ (5 : Rat) / 6 ∧
    handle_success c2State c2StoreB emptyRedis 5 100 =
      { st := c2State, store := (record_success c2StoreB "svc" 1 100).1,
        redis := emptyRedis } := by
  refine ⟨?_, ?_, ?_, by decide, by norm_num [c2State], ?_⟩
  · norm_num [handle_error, c2State, c2StoreA, record_failure, updateStore,
      emptyStore, bump_failed, should_open, fetch_past_window_from_store,
      fetch_plan, get_past_window, PastWindow.isEmpty, window_totals,
      open_decision, open_circuit, state_read, seconds_remaining]
  · norm_num [handle_error, c2State, c2StoreA, record_failure, updateStore,
      emptyStore, bump_failed, should_open, fetch_past_window_from_store,
      fetch_plan, get_past_window, PastWindow.isEmpty, window_totals,
      open_decision, open_circuit, state_read, seconds_remaining]
  · simp [aggregated_view, c2State, c2StoreB, record_success, updateStore,
      emptyStore, bump_success, fetch_past_window_from_store, fetch_plan,
      get_past_window, PastWindow.isEmpty, window_totals]
  · simp [handle_success, c2State, c2StoreB, record_success, updateStore,
      emptyStore, bump_success]

/-- C2 (amended): for every breaker in CLOSED state, after each FAILURE
outcome is recorded, if the aggregated view (computed after the recording,
as `handle_error` computes it) satisfies `totalEvents >= minRequests` and
`totalFailures / totalEvents >= openThreshold`, the breaker transitions to
OPEN and records `openedAtMonotonic = now`; the local buffer is reset (to a
zero-counter entry holding the new snapshot) exactly when that evaluation
refreshed the cached snapshot, which flushes the buffer — not by the
transition itself. (Success outcomes recorded while CLOSED never run the
open evaluation, as the counterexample shows.) -/
theorem C2_amended_failure_opens (st : StrategyState) (store : CircuitStore)
    (redis : RedisState) (mono : Rat) (wall : Int) (exc : Err)
    (hClosed : st.state = BreakerStates.CLOSED)
    (hMin : st.config.min_requests ≤ (handle_error_view st store redis wall exc).1)
    (hThr : st.config.error_threshold_open ≤
      ((handle_error_view st store redis wall exc).2 : Rat) /
        ((handle_error_view st store redis wall exc).1 : Rat)) :
    (handle_error st store redis mono wall exc).st.state = BreakerStates.OPEN ∧
    (handle_error st store redis mono wall exc).st.opened = mono ∧
    ((fetch_past_window_from_store
        { st with last_failure := some exc, failure_count := st.failure_count + 1 }
        (record_failure store st.config.name 1 wall).1 redis wall true).updated =
          true →
      ((handle_error st store redis mono wall exc).store st.config.name).map
        (fun e => (e.total, e.success, e.failed)) = some (0, 0, 0)) := by
  have hres : (should_open
      { st with last_failure := some exc, failure_count := st.failure_count + 1 }
      (record_failure store st.config.name 1 wall).1 redis wall
      (record_failure store st.config.name 1 wall).2.success
      (record_failure store st.config.name 1 wall).2.failed true).result = true := by
    rw [should_open_result_eq]
    have hav : aggregated_view
        { st with last_failure := some exc, failure_count := st.failure_count + 1 }
        (record_failure store st.config.name 1 wall).1 redis wall
        (record_failure store st.config.name 1 wall).2.success
        (record_failure store st.config.name 1 wall).2.failed true =
        handle_error_view st store redis wall exc := rfl
    rw [hav]
    simp [open_decision, hMin, hThr]
  have hcl1 : ({ st with last_failure := some exc,
                         failure_count := st.failure_count + 1 } : StrategyState).state =
      BreakerStates.CLOSED := hClosed
  simp only [handle_error, hres, if_true]
  refine ⟨?_, ?_, ?_⟩
  · simp [open_circuit, state_read_closed _ mono hcl1]
  · simp [open_circuit, state_read_closed _ mono hcl1]
  · intro hupd
    have h3 := should_open_store_updated
      { st with last_failure := some exc, failure_count := st.failure_count + 1 }
      (record_failure store st.config.name 1 wall).1 redis wall
      (record_failure store st.config.name 1 wall).2.success
      (record_failure store st.config.name 1 wall).2.failed hupd
    simp only [open_circuit, state_read_closed _ mono hcl1]
    simp at h3 ⊢
    rw [h3]
    exact ⟨_, rfl, rfl, rfl, rfl⟩

/-- Witness for the amended C2 at `c2State` / `c2StoreA`: the view after the
recorded failure is `(1, 1)`, the trip condition holds (`1 ≤ 1`,
`1/2 ≤ 1/1`), and the theorem yields the OPEN transition with
`opened = mono = 5`. -/
theorem C2_witness :
    (handle_error c2State c2StoreA emptyRedis 5 100 ⟨true, 9⟩).st.state =
      BreakerStates.OPEN ∧
    (handle_error c2State c2StoreA emptyRedis 5 100 ⟨true, 9⟩).st.opened = 5 ∧
    ((fetch_past_window_from_store
        { c2State with last_failure := some ⟨true, 9⟩,
                       failure_count := c2State.failure_count + 1 }
        (record_failure c2StoreA c2State.config.name 1 100).1 emptyRedis 100
        true).updated = true →
      ((handle_error c2State c2StoreA emptyRedis 5 100 ⟨true, 9⟩).store
          c2State.config.name).map (fun e => (e.total, e.success, e.failed)) =
        some (0, 0, 0)) := by
  have hv : handle_error_view c2State c2StoreA emptyRedis 100 ⟨true, 9⟩ = (1, 1) := by
    decide
  exact C2_amended_failure_opens c2State c2StoreA emptyRedis 5 100 ⟨true, 9⟩
    (by decide) (by rw [hv]; decide) (by rw [hv]; norm_num [c2State])

/-! ## Claim C4 -/

/-- A strategy with `window = 2`, `read_delay = 0` for the C4 theorems. -/
def c4State : StrategyState :=
  { config := { name := "svc", recovery_timeout := 30, error_threshold_open := 1 / 2,
                error_threshold_close := 1 / 2, min_requests := 1, window := 2 },
    read_delay := 0, state := BreakerStates.CLOSED, failure_count := 0,
    last_failure := none, opened := 0 }

/-- Store whose cached snapshot ended at second 0 (10 seconds, i.e. more
than one window, before the refresh at second 10). -/
def c4Store : CircuitStore :=
  updateStore emptyStore "svc" ⟨0, 0, 0, 0, ⟨some 0, some []⟩⟩

theorem mem_rangeSeconds {a b t : Int} (h : t ∈ rangeSeconds a b) : a ≤ t ∧ t ≤ b := by
  unfold rangeSeconds at h
  rw [List.mem_map] at h
  obtain ⟨i, hi, hit⟩ := h
  rw [List.mem_range] at hi
  subst hit
  omega

theorem mem_windowInsert {w : List (Int × WindowData)} {k : Int} {v : WindowData}
    {b : Int × WindowData} (h : b ∈ windowInsert w k v) :
    b.1 = k ∨ b ∈ w := by
  unfold windowInsert at h
  split at h
  · simp only [List.mem_map] at h
    obtain ⟨c, hcw, hbc⟩ := h
    by_cases hck : c.1 = k
    · rw [if_pos hck] at hbc
      left
      rw [← hbc]
    · rw [if_neg hck] at hbc
      right
      rw [← hbc]
      exact hcw
  · rcases List.mem_append.mp h with h1 | h2
    · right
      exact h1
    · left
      simp at h2
      rw [h2]

/-- The stale-refresh branch of `fetch_plan` only fires when the snapshot is
actually more than `read_delay` seconds old. -/
theorem fetch_plan_some_stale (st : StrategyState) (store : CircuitStore)
    (wall : Int) (e : Int) (h : fetch_plan st store wall = some (some e)) :
    (st.read_delay : Int) < wall - e := by
  unfold fetch_plan at h
  split at h
  · simp at h
  · split at h
    · simp at h
    · split at h
      · split at h
        · rename_i hlt
          simp only [Option.some.injEq] at h
          omega
        · simp at h
      · simp at h

/-- C4 counterexample: refreshing a snapshot whose `endTimestamp` is more
than `windowSeconds` stale keeps buckets OLDER than
`endTimestamp - (windowSeconds + readDelaySeconds)`: with `window = 2`,
`read_delay = 0`, previous end 0 and the refresh at second 10, the stored
snapshot (which the merge replaces wholesale — nothing drops buckets older
than `now - windowSeconds`) contains bucket second 0, far below the claimed
bound `10 - (2 + 0) = 8`. -/
theorem C4_counterexample :
    (fetch_past_window_from_store c4State c4Store emptyRedis 10 true).updated =
      true ∧
    (fetch_past_window_from_store c4State c4Store emptyRedis 10
        true).pastWindow.pwEnd = some 10 ∧
    (((fetch_past_window_from_store c4State c4Store emptyRedis 10
        true).pastWindow.window.getD []).all
      (fun b => decide (10 - ((c4State.config.window : Int) +
        (c4State.read_delay : Int)) ≤ b.1))) = false ∧
    ((fetch_past_window_from_store c4State c4Store emptyRedis 10 true).store
        "svc").map (fun e => e.past_window) =
      some (fetch_past_window_from_store c4State c4Store emptyRedis 10
        true).pastWindow := by
  decide

/-- Every bucket of a freshly fetched window (synthetic bucket included)
lies between the fetch's start second and `wall`. -/
theorem fetched_buckets_in_range (st : StrategyState) (redis : RedisState)
    (wall start : Int) (pwe : Option Int) (v : WindowData) (hstart : start ≤ wall)
    (hse : (match pwe with
            | none => wall - ((st.config.window : Int) + (st.read_delay : Int))
            | some e => e - (st.read_delay : Int)) = start) :
    ((windowInsert ((fetch_window_data_from_redis st redis wall pwe).window.getD [])
      wall v).all (fun b => decide (start ≤ b.1) && decide (b.1 ≤ wall))) = true := by
  rw [List.all_eq_true]
  intro b hb
  rcases mem_windowInsert hb with hk | hmem
  · simp only [Bool.and_eq_true, decide_eq_true_eq, hk]
    exact ⟨hstart, le_refl wall⟩
  · have hbm : b.1 ∈ rangeSeconds start wall := by
      simp only [fetch_window_data_from_redis, hse] at hmem
      simp only [Option.getD_some] at hmem
      rw [List.mem_map] at hmem
      obtain ⟨t, ht, hbt⟩ := hmem
      rw [← hbt]
      exact ht
    have hrange := mem_rangeSeconds hbm
    simp only [Bool.and_eq_true, decide_eq_true_eq]
    exact hrange

/-- C4 (amended): after every refresh of the cached snapshot, every bucket
lies in the closed range `[start, endTimestamp]` with `endTimestamp = now`,
where `start = endTimestamp - (windowSeconds + readDelaySeconds)` on a first
fetch and `start = previousEnd - readDelaySeconds` on a stale refresh
(`refresh_start`); the refresh replaces the previous buckets wholesale
rather than merging and age-filtering them, so the claimed bound
`endTimestamp - (windowSeconds + readDelaySeconds)` only holds when the
previous snapshot was at most `windowSeconds` old. -/
theorem C4_amended_refresh_bounds (st : StrategyState) (store : CircuitStore)
    (redis : RedisState) (wall : Int)
    (hupd : (fetch_past_window_from_store st store redis wall true).updated = true) :
    (fetch_past_window_from_store st store redis wall true).pastWindow.pwEnd =
      some wall ∧
    (((fetch_past_window_from_store st store redis wall true).pastWindow.window.getD
        []).all (fun b => decide (refresh_start st store wall ≤ b.1) &&
          decide (b.1 ≤ wall))) = true := by
  cases hplan : fetch_plan st store wall with
  | none => simp [fetch_past_window_from_store, hplan] at hupd
  | some pwe =>
    have hw : (fetch_past_window_from_store st store redis wall
        true).pastWindow.window.getD [] =
        windowInsert ((fetch_window_data_from_redis st redis wall pwe).window.getD
          []) wall
          (WindowData.mk
            (get_breaker store st.config.name wall).2.success
            (get_breaker store st.config.name wall).2.failed) := by
      simp [fetch_past_window_from_store, hplan]
    refine ⟨by simp [fetch_past_window_from_store, hplan,
      fetch_window_data_from_redis], ?_⟩
    rw [hw]
    cases pwe with
    | none =>
      have h1 : refresh_start st store wall =
          wall - ((st.config.window : Int) + (st.read_delay : Int)) := by
        simp [refresh_start, hplan]
      rw [h1]
      exact fetched_buckets_in_range st redis wall _ none _ (by omega) rfl
    | some e =>
      have hlt := fetch_plan_some_stale st store wall e hplan
      have h1 : refresh_start st store wall = e - (st.read_delay : Int) := by
        simp [refresh_start, hplan]
      rw [h1]
      exact fetched_buckets_in_range st redis wall _ (some e) _ (by omega) rfl

/-- Witness for the amended C4: a first refresh (empty store) at second 10
with `window = 2`, `read_delay = 0` produces a snapshot whose buckets all lie
in `[refresh_start, 10]`. -/
theorem C4_witness :
    (fetch_past_window_from_store c4State emptyStore emptyRedis 10 true).updated =
      true ∧
    (fetch_past_window_from_store c4State emptyStore emptyRedis 10
        true).pastWindow.pwEnd = some 10 ∧
    (((fetch_past_window_from_store c4State emptyStore emptyRedis 10
        true).pastWindow.window.getD []).all
      (fun b => decide (refresh_start c4State emptyStore 10 ≤ b.1) &&
        decide (b.1 ≤ 10))) = true := by
  have h := C4_amended_refresh_bounds c4State emptyStore emptyRedis 10 (by decide)
  exact ⟨by decide, h.1, h.2⟩

/-! ## Claim C6 -/

/-- An OPEN breaker (timer unexpired at monotonic 5) for the C6
counterexample. -/
def c6State : StrategyState :=
  { config := { name := "u", recovery_timeout := 30, error_threshold_open := 1 / 2,
                error_threshold_close := 1 / 2, min_requests := 30, window := 60 },
    read_delay := 1, state := BreakerStates.OPEN, failure_count := 0,
    last_failure := none, opened := 0 }

/-- Local store for the C6 counterexample (snapshot fresh at wall second
100, so no refresh triggers). -/
def c6Store : CircuitStore :=
  updateStore emptyStore "u" ⟨0, 0, 0, 0, ⟨some 100, some []⟩⟩

/-- C6 counterexample: entering the scoped guard performs NO admission check.
With the breaker OPEN and its recovery timer not expired (an admission check
would deny), `__enter__` returns with everything untouched, the scope body
runs, and `__exit__` records the body's classified failure against the open
breaker (failure count bumped, failure reported). -/
theorem C6_counterexample :
    c6State.state = BreakerStates.OPEN ∧
    (5 : Rat) < c6State.opened + c6State.config.recovery_timeout ∧
    service_enter c6State c6Store emptyRedis = (c6State, c6Store, emptyRedis) ∧
    (use_scope c6State c6Store emptyRedis 5 100
        (Except.error ⟨true, 3⟩)).st.failure_count = 1 ∧
    (use_scope c6State c6Store emptyRedis 5 100
        (Except.error ⟨true, 3⟩)).st.state = BreakerStates.OPEN ∧
    (use_scope c6State c6Store emptyRedis 5 100
        (Except.error ⟨true, 3⟩)).reported = some Reported.failure := by
  refine ⟨rfl, by norm_num [c6State], rfl, ?_, ?_, ?_⟩ <;>
    simp [use_scope, service_enter, service_exit, feature_flag_enabled, is_failure,
      handle_error, record_failure, c6State, c6Store, updateStore, emptyStore,
      bump_failed, should_open, fetch_past_window_from_store, fetch_plan,
      get_past_window, PastWindow.isEmpty, window_totals, open_decision]

/-- C6 (amended): entering the scope is a no-op performing no admission
check (for the decorator path, admission happens in the wrapper before the
scope is entered); leaving the scope reports exactly one outcome — a
classified failure when a classified error escaped the scope, a success
otherwise (including for unclassified errors and normal exits). -/
theorem C6_amended_scope_guard (st : StrategyState) (store : CircuitStore)
    (redis : RedisState) (mono : Rat) (wall : Int) (exc : Option Err) :
    service_enter st store redis = (st, store, redis) ∧
    (service_exit st store redis mono wall exc).reported =
      some (match exc with
            | some e => if is_failure e then Reported.failure else Reported.success
            | none => Reported.success) := by
  refine ⟨rfl, ?_⟩
  cases exc with
  | none => rfl
  | some e =>
    by_cases he : is_failure e <;>
      simp [service_exit, feature_flag_enabled, he]

/-! ## Claim C9 -/

/-- The local-store operations the claim quantifies over, each carrying the
wall-clock second at which it runs. -/
inductive StoreOp
  | record_success_op (inc : Nat) (wall : Int)
  | record_failure_op (inc : Nat) (wall : Int)
  | reset_breaker_op (wall : Int)
  | get_breaker_op (wall : Int)
deriving DecidableEq, Repr

/-- Apply one store operation for one breaker name. -/
def apply_op (store : CircuitStore) (name : String) : StoreOp → CircuitStore
  | StoreOp.record_success_op inc wall => (record_success store name inc wall).1
  | StoreOp.record_failure_op inc wall => (record_failure store name inc wall).1
  | StoreOp.reset_breaker_op wall => reset_breaker store name wall
  | StoreOp.get_breaker_op wall => (get_breaker store name wall).1

/-- Apply a sequence of named store operations. -/
def apply_ops (store : CircuitStore) (ops : List (String × StoreOp)) : CircuitStore :=
  ops.foldl (fun s p => apply_op s p.1 p.2) store

/-- The claimed invariant: every registered entry's total equals its success
count plus its failed count. -/
def buffer_invariant (store : CircuitStore) : Prop :=
  ∀ n e, store n = some e → e.total = e.success + e.failed

theorem buffer_invariant_updateStore (store : CircuitStore) (n : String)
    (e : CircuitEntry) (hinv : buffer_invariant store)
    (he : e.total = e.success + e.failed) :
    buffer_invariant (updateStore store n e) := by
  intro k x hk
  unfold updateStore at hk
  by_cases h : k = n
  · rw [if_pos h] at hk
    cases hk
    exact he
  · rw [if_neg h] at hk
    exact hinv k x hk

theorem buffer_invariant_circuits_set (store : CircuitStore) (n : String) (wall : Int)
    (hinv : buffer_invariant store) : buffer_invariant (circuits_set store n wall) := by
  unfold circuits_set
  cases h : store n with
  | some e => exact hinv
  | none => exact buffer_invariant_updateStore store n _ hinv rfl

theorem buffer_invariant_apply_op (store : CircuitStore) (n : String) (op : StoreOp)
    (hinv : buffer_invariant store) : buffer_invariant (apply_op store n op) := by
  cases op with
  | record_success_op inc wall =>
    simp only [apply_op, record_success]
    cases h : store n with
    | some e =>
      have he := hinv n e h
      exact buffer_invariant_updateStore store n _ hinv (by simp [bump_success]; omega)
    | none =>
      exact buffer_invariant_updateStore _ n _
        (buffer_invariant_circuits_set store n wall hinv)
        (by simp [bump_success, freshEntry])
  | record_failure_op inc wall =>
    simp only [apply_op, record_failure]
    cases h : store n with
    | some e =>
      have he := hinv n e h
      exact buffer_invariant_updateStore store n _ hinv (by simp [bump_failed]; omega)
    | none =>
      exact buffer_invariant_updateStore _ n _
        (buffer_invariant_circuits_set store n wall hinv)
        (by simp [bump_failed, freshEntry])
  | reset_breaker_op wall =>
    simp only [apply_op, reset_breaker]
    apply buffer_invariant_circuits_set
    intro k x hk
    by_cases h : k = n
    · simp [h] at hk
    · simp only [if_neg h] at hk
      exact hinv k x hk
  | get_breaker_op wall =>
    simp only [apply_op, get_breaker]
    cases h : store n with
    | some e => exact hinv
    | none => exact buffer_invariant_circuits_set store n wall hinv

/-- C9: for every sequence of `record_success`, `record_failure`,
`reset_breaker` and `get_breaker` operations, starting from any store whose
entries satisfy it, every entry's total counter equals its success counter
plus its failed counter. -/
theorem C9_buffer_total_invariant (store : CircuitStore) (h : buffer_invariant store)
    (ops : List (String × StoreOp)) : buffer_invariant (apply_ops store ops) := by
  induction ops generalizing store with
  | nil => exact h
  | cons p rest ih =>
    exact ih (apply_op store p.1 p.2) (buffer_invariant_apply_op store p.1 p.2 h)

/-- A concrete operation sequence for the C9 witness. -/
def c9_ops : List (String × StoreOp) :=
  [("a", StoreOp.record_success_op 1 0), ("a", StoreOp.record_failure_op 2 0),
   ("b", StoreOp.reset_breaker_op 0), ("a", StoreOp.get_breaker_op 0)]

/-- Witness: running `c9_ops` from the empty store yields the entry
`(total 3, success 1, failed 2)` for breaker "a", and
`C9_buffer_total_invariant` certifies `3 = 1 + 2` for it. -/
theorem C9_witness :
    (apply_ops emptyStore c9_ops) "a" =
      some (CircuitEntry.mk 3 1 2 0 PastWindow.empty) ∧
    (CircuitEntry.mk 3 1 2 0 PastWindow.empty).total =
      (CircuitEntry.mk 3 1 2 0 PastWindow.empty).success +
        (CircuitEntry.mk 3 1 2 0 PastWindow.empty).failed :=
  ⟨by decide,
   C9_buffer_total_invariant emptyStore (by intro n e he; cases he) c9_ops "a"
     (CircuitEntry.mk 3 1 2 0 PastWindow.empty) (by decide)⟩

/-! ## Claim C8 -/

/-- C8: wrapping by name is idempotent. For every non-empty name, a second
`circuit` call with that name (any options) returns the registry unchanged
and the very service record the first call returned — the configuration of
the first call is the one retained (when the name was fresh, that record is
built from the first call's options); and `get_strategy` called again for a
name returns the strategies map unchanged and the same strategy instance
installed by the first call. -/
theorem C8_wrap_idempotent (breakers : String → Option BreakerServiceRec)
    (strategies : String → Option StrategyInstance) (name : String)
    (strat1 strat2 : Option StrategyKind)
    (t1 t1c r1 t2 t2c r2 : Option Rat) (fb1 fb2 : Option Nat)
    (sk : Option StrategyKind) (rta rob rcb : Rat) (fba : Option Nat)
    (rtb rob2 rcb2 : Rat) (fbb : Option Nat)
    (h : name ≠ "") :
    (match circuit breakers name strat1 t1 t1c r1 fb1 with
     | Except.ok pr => circuit pr.1 name strat2 t2 t2c r2 fb2 = Except.ok pr
     | Except.error _ => False) ∧
    (breakers name = none →
      match circuit breakers name strat1 t1 t1c r1 fb1 with
      | Except.ok pr =>
        pr.2 = mk_breaker_service t1 t1c r1 (some name) fb1 strat1
      | Except.error _ => False) ∧
    get_strategy ((get_strategy strategies sk name rta rob rcb fba).1) sk name
        rtb rob2 rcb2 fbb =
      get_strategy strategies sk name rta rob rcb fba := by
  refine ⟨?_, ?_, ?_⟩
  · unfold circuit
    rw [if_neg h]
    cases hb : breakers name with
    | some b => simp [hb, if_neg h]
    | none => simp [hb, if_neg h, updateStore]
  · intro hb
    unfold circuit
    rw [if_neg h]
    simp [hb]
  · unfold get_strategy
    cases hl : strategies name with
    | some inst => simp [hl]
    | none =>
      cases sk with
      | none => simp [hl]
      | some k =>
        cases k
        simp [hl]

/-- Witness: `C8_wrap_idempotent` at the empty registries with name "svc":
the second `circuit` call (different options) returns the first call's
service record with the first call's thresholds, and the second
`get_strategy` call returns the installed instance unchanged. -/
theorem C8_witness :
    (match circuit (fun _ => none) "svc" (some StrategyKind.Distributed)
        (some (3 / 10)) none (some 45) none with
     | Except.ok pr =>
       circuit pr.1 "svc" (some StrategyKind.Distributed) (some (7 / 10)) none
         (some 20) (some 8) = Except.ok pr
     | Except.error _ => False) ∧
    ((fun (_ : String) => (none : Option BreakerServiceRec)) "svc" = none →
      match circuit (fun _ => none) "svc" (some StrategyKind.Distributed)
          (some (3 / 10)) none (some 45) none with
      | Except.ok pr =>
        pr.2 = mk_breaker_service (some (3 / 10)) none (some 45) (some "svc") none
          (some StrategyKind.Distributed)
      | Except.error _ => False) ∧
    get_strategy ((get_strategy (fun _ => none) (some StrategyKind.Distributed)
          "svc" 45 (3 / 10) (3 / 10) none).1) (some StrategyKind.Distributed) "svc"
        20 (7 / 10) (7 / 10) (some 8) =
      get_strategy (fun _ => none) (some StrategyKind.Distributed) "svc" 45 (3 / 10)
        (3 / 10) none :=
  C8_wrap_idempotent (fun _ => none) (fun _ => none) "svc"
    (some StrategyKind.Distributed) (some StrategyKind.Distributed)
    (some (3 / 10)) none (some 45) (some (7 / 10)) none (some 20) none (some 8)
    (some StrategyKind.Distributed) 45 (3 / 10) (3 / 10) none 20 (7 / 10) (7 / 10)
    (some 8) (by decide)

end Breaker
